import Mathlib

/-!
A shallow embedding of the DS3231 real-time-clock driver (`DS3231.hpp` /
`DS3231.cpp`) and proofs about its register encoding and decoding, its bus
transaction sequencing and its error propagation.

The driver talks to the chip through a register-addressed bus abstraction.
Bus traffic is modelled explicitly: every operation returns, next to its
`CallStatus` result and its outputs, the list of bus transactions it issued,
and the outcomes the bus would deliver are passed in as parameters (one per
potential transaction, consumed in program order).  The external `hal-common`
collaborators (the `DateTime` value object and the BCD helpers) are not part
of this repository's sources; they are modelled from the specification and
are marked as such.
-/

namespace DS3231

/-- Modelled from the spec: the external `hal-common` date/time value object,
an opaque value type with accessors for year, month, day, hour, minute,
second and day-of-week; `fromUncheckedValues` builds one from the raw field
values without any validation, so it is represented as a plain record. -/
structure DateTime where
  year : Nat
  month : Nat
  day : Nat
  hour : Nat
  minute : Nat
  second : Nat
  dayOfWeek : Nat
  deriving DecidableEq

/-- Modelled from the spec: the external `hal-common` BCD helper
binary→BCD; each decimal digit is stored in 4 bits, two digits per byte,
and the result is a `uint8_t` (hence the truncation to one byte). -/
def convertBinToBcd (n : Nat) : Nat := (n / 10 * 16 + n % 10) % 256

/-- Modelled from the spec: the external `hal-common` BCD helper
BCD→binary; the high nibble holds the tens digit and the low nibble the
ones digit, and the result is a `uint8_t`. -/
def convertBcdToBin (b : Nat) : Nat := (b / 16 * 10 + b % 16) % 256

/-- The driver's two-valued call outcome, `DS3231::Status` (= `CallStatus`). -/
inductive CallStatus where
  | success
  | error
  deriving DecidableEq

/-- The bus transport's outcome for one transaction, `WireMaster::Status`
as observed through `isSuccessful` / `hasError`. -/
inductive WireStatus where
  | success
  | error
  deriving DecidableEq

/-- The result of a single-bit test read, `WireMaster::BitResult`. -/
inductive BitResult where
  | set
  | zero
  deriving DecidableEq

/-- `DS3231::statusFromBus`: collapse a bus status into the driver status. -/
def statusFromBus : WireStatus → CallStatus
  | .success => .success
  | .error => .error

/-- Register address `Register::Seconds`. -/
def Register.seconds : Nat := 0x00

/-- Register address `Register::Alarm1Seconds`. -/
def Register.alarm1Seconds : Nat := 0x07

/-- Register address `Register::Alarm2Minutes`. -/
def Register.alarm2Minutes : Nat := 0x0b

/-- Register address `Register::Control`. -/
def Register.control : Nat := 0x0e

/-- Register address `Register::Status`. -/
def Register.status : Nat := 0x0f

/-- Register address `Register::TemperatureHigh`. -/
def Register.temperatureHigh : Nat := 0x11

/-- Control-register flag `ControlFlag::EOSC` (bit 7). -/
def ControlFlag.EOSC : Nat := 0x80

/-- Status-register flag `StatusFlag::OSF` (bit 7). -/
def StatusFlag.OSF : Nat := 0x80

/-- Status-register flag `StatusFlag::A1F` (bit 0). -/
def StatusFlag.A1F : Nat := 0x01

/-- Status-register flag `StatusFlag::A2F` (bit 1). -/
def StatusFlag.A2F : Nat := 0x02

/-- One bus transaction as issued by the driver against the
`WireMasterRegisterChip` abstraction. -/
inductive BusOp where
  | readData (reg len : Nat)
  | writeData (reg : Nat) (bytes : List Nat)
  | testBits (reg mask : Nat)
  | clearBits (reg mask : Nat)
  | writeBits (reg mask value : Nat)
  deriving DecidableEq

/-- `DS3231::DateTimeRegister`: the seven date/time registers as one block,
in memory (= register) order. -/
structure DateTimeRegister where
  seconds : Nat
  minutes : Nat
  hours : Nat
  dayOfWeek : Nat
  day : Nat
  month : Nat
  year : Nat
  deriving DecidableEq

/-- The byte image of a `DateTimeRegister` block as it is written over the
bus (`reinterpret_cast<uint8_t*>` of the packed struct). -/
def dateTimeRegisterBytes (d : DateTimeRegister) : List Nat :=
  [d.seconds, d.minutes, d.hours, d.dayOfWeek, d.day, d.month, d.year]

/-- The register image `DS3231::setDateTime` prepares before its batched
write: BCD for all fields except the verbatim day-of-week, the century bit
(bit 7 of the month register) set when the year reaches `yearBase + 100`,
and the two-digit year `year % 100` in BCD. -/
def encodeDateTime (yearBase : Nat) (dt : DateTime) : DateTimeRegister where
  seconds := convertBinToBcd dt.second
  minutes := convertBinToBcd dt.minute
  hours := convertBinToBcd dt.hour
  dayOfWeek := dt.dayOfWeek % 256
  day := convertBinToBcd dt.day
  month := convertBinToBcd dt.month ||| (if yearBase + 100 ≤ dt.year then 0x80 else 0)
  year := convertBinToBcd (dt.year % 100)

/-- The conversion `DS3231::getDateTime` applies to a read register block:
BCD decode under the reserved-bit masks, the year rebuilt from the century
bit, and the day-of-week masked to 3 bits. -/
def decodeDateTime (yearBase : Nat) (d : DateTimeRegister) : DateTime where
  year := convertBcdToBin d.year + (if d.month &&& 0x80 ≠ 0 then yearBase + 100 else yearBase)
  month := convertBcdToBin (d.month &&& 0x1f)
  day := convertBcdToBin (d.day &&& 0x3f)
  hour := convertBcdToBin (d.hours &&& 0x3f)
  minute := convertBcdToBin (d.minutes &&& 0x7f)
  second := convertBcdToBin (d.seconds &&& 0x7f)
  dayOfWeek := d.dayOfWeek &&& 0x7

/-- `DS3231::setDateTime`: reject a year outside `[yearBase, yearBase+200)`
without any bus traffic, otherwise write the encoded 7-byte block in one
batch starting at the seconds register.  `w` is the outcome the bus reports
for that write. -/
def setDateTime (yearBase : Nat) (dt : DateTime) (w : WireStatus) :
    CallStatus × List BusOp :=
  if dt.year < yearBase ∨ yearBase + 200 ≤ dt.year then
    (.error, [])
  else
    (statusFromBus w,
      [.writeData Register.seconds (dateTimeRegisterBytes (encodeDateTime yearBase dt))])

/-- `DS3231::getDateTime`: one batched 7-register read; on success the block
is decoded into a `DateTime`, on failure nothing is stored.  `st` is the
outcome of the read and `data` the block it would deliver. -/
def getDateTime (yearBase : Nat) (st : WireStatus) (data : DateTimeRegister) :
    CallStatus × Option DateTime × List BusOp :=
  match st with
  | .success =>
    (.success, some (decodeDateTime yearBase data), [.readData Register.seconds 7])
  | .error => (.error, none, [.readData Register.seconds 7])

/-- `DS3231::isRunning`: test the OSF status bit; on error abort, if set
report not-running without the second read, otherwise test the EOSC control
bit and report running exactly when it reads zero.  `st1`/`br1` are the
outcome and bit value of the first test, `st2`/`br2` of the second. -/
def isRunning (st1 : WireStatus) (br1 : BitResult) (st2 : WireStatus) (br2 : BitResult) :
    CallStatus × Option Bool × List BusOp :=
  match st1 with
  | .error => (.error, none, [.testBits Register.status StatusFlag.OSF])
  | .success =>
    match br1 with
    | .set => (statusFromBus .success, some false, [.testBits Register.status StatusFlag.OSF])
    | .zero =>
      match st2 with
      | .error => (.error, none,
          [.testBits Register.status StatusFlag.OSF, .testBits Register.control ControlFlag.EOSC])
      | .success => (statusFromBus .success, some (decide (br2 = BitResult.zero)),
          [.testBits Register.status StatusFlag.OSF, .testBits Register.control ControlFlag.EOSC])

/-- `DS3231::enableOscillator`: clear EOSC in the control register; on
failure abort, otherwise clear OSF in the status register and return that
second write's status.  `w1` and `w2` are the two write outcomes. -/
def enableOscillator (w1 w2 : WireStatus) : CallStatus × List BusOp :=
  match w1 with
  | .error => (.error, [.clearBits Register.control ControlFlag.EOSC])
  | .success =>
    (statusFromBus w2,
      [.clearBits Register.control ControlFlag.EOSC, .clearBits Register.status StatusFlag.OSF])

/-- `DS3231::AlarmRegister`: the four alarm registers as one block. -/
structure AlarmRegister where
  seconds : Nat
  minutes : Nat
  hours : Nat
  day : Nat
  deriving DecidableEq

/-- Alarm mode value `AlarmMode::OncePerSecond`. -/
def AlarmMode.OncePerSecond : Nat := 0b01111

/-- Alarm mode value `AlarmMode::SecondsMatch` (= `OncePerMinute`). -/
def AlarmMode.SecondsMatch : Nat := 0b01110

/-- Alarm mode value `AlarmMode::MinutesSeconds`. -/
def AlarmMode.MinutesSeconds : Nat := 0b01100

/-- Alarm mode value `AlarmMode::HoursMinutesSeconds`. -/
def AlarmMode.HoursMinutesSeconds : Nat := 0b01000

/-- Alarm mode value `AlarmMode::DateHoursMinutesSeconds`. -/
def AlarmMode.DateHoursMinutesSeconds : Nat := 0b00000

/-- Alarm mode value `AlarmMode::DayHoursMinutesSeconds`. -/
def AlarmMode.DayHoursMinutesSeconds : Nat := 0b10000

/-- `DS3231::fillAlarmRegister`: BCD-encode seconds, minutes and hours with
the don't-care bit (bit 7) taken from mode bits 0, 1 and 2; the day byte is
`BCD(dayOfWeek+1) | 0x40` in day-of-week mode and `BCD(day)` otherwise, and
in either case receives bit 7 from mode bit 3. -/
def fillAlarmRegister (alarmMode : Nat) (dt : DateTime) : AlarmRegister :=
  let seconds := convertBinToBcd dt.second ||| (if alarmMode &&& 0b00001 ≠ 0 then 0x80 else 0x00)
  let minutes := convertBinToBcd dt.minute ||| (if alarmMode &&& 0b00010 ≠ 0 then 0x80 else 0x00)
  let hours := convertBinToBcd dt.hour ||| (if alarmMode &&& 0b00100 ≠ 0 then 0x80 else 0x00)
  let day0 :=
    if alarmMode = AlarmMode.DayHoursMinutesSeconds then
      convertBinToBcd (dt.dayOfWeek + 1) ||| 0b01000000
    else
      convertBinToBcd dt.day
  { seconds := seconds, minutes := minutes, hours := hours,
    day := day0 ||| (if alarmMode &&& 0b01000 ≠ 0 then 0x80 else 0x00) }

/-- `DS3231::setAlarm1`: one batched write of all four alarm bytes starting
at `Alarm1Seconds`.  `w` is the bus outcome for that write. -/
def setAlarm1 (alarmMode : Nat) (dt : DateTime) (w : WireStatus) :
    CallStatus × List BusOp :=
  let d := fillAlarmRegister alarmMode dt
  (statusFromBus w,
    [.writeData Register.alarm1Seconds [d.seconds, d.minutes, d.hours, d.day]])

/-- `DS3231::setAlarm2`: one batched write of the last three alarm bytes
(the `+1` on the struct pointer and the `-1` on the size drop the seconds
byte) starting at `Alarm2Minutes`.  `w` is the bus outcome. -/
def setAlarm2 (alarmMode : Nat) (dt : DateTime) (w : WireStatus) :
    CallStatus × List BusOp :=
  let d := fillAlarmRegister alarmMode dt
  (statusFromBus w,
    [.writeData Register.alarm2Minutes [d.minutes, d.hours, d.day]])

/-- `DS3231::isAlarm1Set`: test the A1F status bit; on error abort; report
whether it was set, and when it was, issue a clearing write whose outcome
`cw` is dropped — the call returns the status of the initial test read. -/
def isAlarm1Set (st : WireStatus) (br : BitResult) (cw : WireStatus) :
    CallStatus × Option Bool × List BusOp :=
  match st with
  | .error => (.error, none, [.testBits Register.status StatusFlag.A1F])
  | .success =>
    match br with
    | .set => (statusFromBus .success, some true,
        [.testBits Register.status StatusFlag.A1F, .clearBits Register.status StatusFlag.A1F])
    | .zero => (statusFromBus .success, some false, [.testBits Register.status StatusFlag.A1F])

/-- `DS3231::isAlarm2Set`: like `isAlarm1Set` with the A2F status bit. -/
def isAlarm2Set (st : WireStatus) (br : BitResult) (cw : WireStatus) :
    CallStatus × Option Bool × List BusOp :=
  match st with
  | .error => (.error, none, [.testBits Register.status StatusFlag.A2F])
  | .success =>
    match br with
    | .set => (statusFromBus .success, some true,
        [.testBits Register.status StatusFlag.A2F, .clearBits Register.status StatusFlag.A2F])
    | .zero => (statusFromBus .success, some false, [.testBits Register.status StatusFlag.A2F])

/-- Int-pin mode value `IntPinMode::Disabled`. -/
def IntPinMode.Disabled : Nat := 0b00000

/-- Int-pin mode value `IntPinMode::Alarm1`. -/
def IntPinMode.Alarm1 : Nat := 0b00101

/-- Int-pin mode value `IntPinMode::Alarm2`. -/
def IntPinMode.Alarm2 : Nat := 0b00101

/-- Int-pin mode value `IntPinMode::Alarm12`. -/
def IntPinMode.Alarm12 : Nat := 0b00101

/-- Int-pin mode value `IntPinMode::SquareWave1Hz`. -/
def IntPinMode.SquareWave1Hz : Nat := 0b00000

/-- Int-pin mode value `IntPinMode::SquareWave1024Hz`. -/
def IntPinMode.SquareWave1024Hz : Nat := 0b01000

/-- `DS3231::setIntPinMode`: one masked field write of the mode value into
the low five bits of the control register. -/
def setIntPinMode (mode : Nat) (w : WireStatus) : CallStatus × List BusOp :=
  (statusFromBus w, [.writeBits Register.control 0b00011111 mode])

/-- `DS3231::TemperatureRegister`: signed 8-bit integer part and the raw
low byte whose top two bits hold the quarter-degree fraction. -/
structure TemperatureRegister where
  high : Int
  low : Nat
  deriving DecidableEq

/-- `DS3231::getTemperature`: read the two temperature registers in one
batch; on success the value is the integer part with the quarter fraction
added for a non-negative integer part and subtracted for a negative one.
All involved `float` values (an 8-bit integer plus a multiple of 1/4, with
magnitude below 129) are exactly representable in binary32 and the
operations are exact, so the arithmetic is modelled over `ℚ`. -/
def getTemperature (st : WireStatus) (data : TemperatureRegister) :
    CallStatus × Option ℚ × List BusOp :=
  match st with
  | .success =>
    let result : ℚ := (data.high : ℚ)
    let fraction : ℚ := ((data.low >>> 6 : Nat) : ℚ) * (1 / 4)
    (.success, some (if result < 0 then result - fraction else result + fraction),
      [.readData Register.temperatureHigh 2])
  | .error => (.error, none, [.readData Register.temperatureHigh 2])

/-! ### Helper lemmas about the BCD field transforms -/

theorem bcd_roundtrip : ∀ n < 100, convertBcdToBin (convertBinToBcd n) = n := by decide

theorem bcd_mask7f_roundtrip : ∀ n < 60, convertBcdToBin (convertBinToBcd n &&& 0x7f) = n := by
  decide

theorem bcd_mask3f_roundtrip : ∀ n < 32, convertBcdToBin (convertBinToBcd n &&& 0x3f) = n := by
  decide

theorem dayOfWeek_mask_roundtrip : ∀ n < 8, n % 256 &&& 0x7 = n := by decide

theorem month_mask_set : ∀ m < 13, convertBcdToBin ((convertBinToBcd m ||| 0x80) &&& 0x1f) = m := by
  decide

theorem month_mask_clear : ∀ m < 13, convertBcdToBin ((convertBinToBcd m ||| 0) &&& 0x1f) = m := by
  decide

theorem month_bit7_set : ∀ m < 13, (convertBinToBcd m ||| 0x80) &&& 0x80 ≠ 0 := by decide

theorem month_bit7_clear : ∀ m < 13, (convertBinToBcd m ||| 0) &&& 0x80 = 0 := by decide

theorem bcd_lt_256 (n : Nat) : convertBinToBcd n < 256 := Nat.mod_lt _ (by norm_num)

set_option maxRecDepth 4000 in
theorem lor80_bit7 : ∀ b < 256, (b ||| 0x80) &&& 0x80 ≠ 0 := by decide

set_option maxRecDepth 4000 in
theorem lor40_lt_256 : ∀ b < 256, (b ||| 0x40) < 256 := by decide

theorem bcd_bit7_clear_60 : ∀ n < 60, convertBinToBcd n &&& 0x80 = 0 := by decide

theorem bcd_bit7_clear_32 : ∀ n < 32, convertBinToBcd n &&& 0x80 = 0 := by decide

theorem dayOfWeek_or40_bit7_clear : ∀ n < 9, (convertBinToBcd n ||| 0x40) &&& 0x80 = 0 := by
  decide

/-! ### Claim theorems -/

/-- C1 counterexample: with `yearBase = 1950` the value 2000-01-01
00:00:00 (day-of-week 0) has every field in range — the year lies in
`[yearBase, yearBase + 200)` — yet encoding as `setDateTime` does and
decoding as `getDateTime` does yields year 1950, not 2000, so the round
trip does not reproduce the original value. -/
theorem roundtrip_counterexample :
    (1950 ≤ 2000 ∧ 2000 < 1950 + 200) ∧
    (decodeDateTime 1950 (encodeDateTime 1950 ⟨2000, 1, 1, 0, 0, 0, 0⟩)).year = 1950 ∧
    decodeDateTime 1950 (encodeDateTime 1950 ⟨2000, 1, 1, 0, 0, 0, 0⟩) ≠
      (⟨2000, 1, 1, 0, 0, 0, 0⟩ : DateTime) := by
  decide

/-- C1 (amended): when the configured `yearBase` is a multiple of 100 (as
the default 2000 is), encoding a date/time with year in
`[yearBase, yearBase + 200)` and all other fields in range as `setDateTime`
does and decoding the image as `getDateTime` does reproduces every field. -/
theorem roundtrip_dateTime (yearBase : Nat) (dt : DateTime)
    (hb : 100 ∣ yearBase)
    (hy1 : yearBase ≤ dt.year) (hy2 : dt.year < yearBase + 200)
    (hm1 : 1 ≤ dt.month) (hm2 : dt.month ≤ 12)
    (hd1 : 1 ≤ dt.day) (hd2 : dt.day ≤ 31)
    (hh : dt.hour ≤ 23) (hmi : dt.minute ≤ 59) (hs : dt.second ≤ 59)
    (hw : dt.dayOfWeek ≤ 7) :
    decodeDateTime yearBase (encodeDateTime yearBase dt) = dt := by
  obtain ⟨year, month, day, hour, minute, second, dayOfWeek⟩ := dt
  simp only at hy1 hy2 hm1 hm2 hd1 hd2 hh hmi hs hw
  simp only [decodeDateTime, encodeDateTime, DateTime.mk.injEq]
  by_cases hc : yearBase + 100 ≤ year
  · simp only [hc, ite_true]
    rw [if_pos (month_bit7_set month (by omega))]
    refine ⟨?_, ?_, ?_, ?_, ?_, ?_, ?_⟩
    · rw [bcd_roundtrip (year % 100) (Nat.mod_lt _ (by norm_num))]
      omega
    · exact month_mask_set month (by omega)
    · exact bcd_mask3f_roundtrip day (by omega)
    · exact bcd_mask3f_roundtrip hour (by omega)
    · exact bcd_mask7f_roundtrip minute (by omega)
    · exact bcd_mask7f_roundtrip second (by omega)
    · exact dayOfWeek_mask_roundtrip dayOfWeek (by omega)
  · simp only [hc, ite_false]
    rw [if_neg (fun hne => hne (month_bit7_clear month (by omega)))]
    refine ⟨?_, ?_, ?_, ?_, ?_, ?_, ?_⟩
    · rw [bcd_roundtrip (year % 100) (Nat.mod_lt _ (by norm_num))]
      omega
    · exact month_mask_clear month (by omega)
    · exact bcd_mask3f_roundtrip day (by omega)
    · exact bcd_mask3f_roundtrip hour (by omega)
    · exact bcd_mask7f_roundtrip minute (by omega)
    · exact bcd_mask7f_roundtrip second (by omega)
    · exact dayOfWeek_mask_roundtrip dayOfWeek (by omega)

/-- C1 witness: the round trip at `yearBase = 2000` on a concrete in-range
value. -/
theorem roundtrip_dateTime_witness :
    decodeDateTime 2000 (encodeDateTime 2000 ⟨2077, 4, 26, 13, 58, 59, 3⟩) =
      (⟨2077, 4, 26, 13, 58, 59, 3⟩ : DateTime) :=
  roundtrip_dateTime 2000 ⟨2077, 4, 26, 13, 58, 59, 3⟩ (by decide) (by decide) (by decide)
    (by decide) (by decide) (by decide) (by decide) (by decide) (by decide) (by decide)
    (by decide)

/-- C2: `setDateTime` returns `Error` and issues no bus transaction when
the year is below `yearBase` or at least `yearBase + 200`, and for a year
inside the window it passes the check and issues the batched register
write. -/
theorem setDateTime_year_check (yearBase : Nat) (dt : DateTime) (w : WireStatus) :
    (dt.year < yearBase ∨ yearBase + 200 ≤ dt.year →
      setDateTime yearBase dt w = (CallStatus.error, [])) ∧
    (yearBase ≤ dt.year → dt.year < yearBase + 200 →
      setDateTime yearBase dt w = (statusFromBus w,
        [BusOp.writeData Register.seconds
          (dateTimeRegisterBytes (encodeDateTime yearBase dt))])) := by
  constructor
  · intro h
    rw [setDateTime, if_pos h]
  · intro h1 h2
    rw [setDateTime, if_neg (by omega)]

/-- C2 witness: with `yearBase = 2000`, the years 1999 (= yearBase−1) and
2200 (= yearBase+200) are rejected without a write, while 2000 and 2199
pass the check and reach the batched write. -/
theorem setDateTime_year_check_witness :
    setDateTime 2000 ⟨1999, 12, 31, 23, 59, 59, 5⟩ .success = (CallStatus.error, []) ∧
    setDateTime 2000 ⟨2200, 1, 1, 0, 0, 0, 0⟩ .success = (CallStatus.error, []) ∧
    setDateTime 2000 ⟨2000, 1, 1, 0, 0, 0, 6⟩ .success = (statusFromBus .success,
      [BusOp.writeData Register.seconds
        (dateTimeRegisterBytes (encodeDateTime 2000 ⟨2000, 1, 1, 0, 0, 0, 6⟩))]) ∧
    setDateTime 2000 ⟨2199, 12, 31, 23, 59, 59, 2⟩ .success = (statusFromBus .success,
      [BusOp.writeData Register.seconds
        (dateTimeRegisterBytes (encodeDateTime 2000 ⟨2199, 12, 31, 23, 59, 59, 2⟩))]) :=
  ⟨(setDateTime_year_check 2000 _ _).1 (Or.inl (by decide)),
   (setDateTime_year_check 2000 _ _).1 (Or.inr (by decide)),
   (setDateTime_year_check 2000 _ _).2 (by decide) (by decide),
   (setDateTime_year_check 2000 _ _).2 (by decide) (by decide)⟩

/-- C6 counterexample: with `yearBase = 1950` and year
`yearBase + 150 = 2100` the written month register does carry the century
bit, but decoding the image yields 2050, not `yearBase + 150`. -/
theorem century_bit_counterexample :
    (encodeDateTime 1950 ⟨2100, 1, 1, 0, 0, 0, 0⟩).month &&& 0x80 ≠ 0 ∧
    (decodeDateTime 1950 (encodeDateTime 1950 ⟨2100, 1, 1, 0, 0, 0, 0⟩)).year = 2050 ∧
    (decodeDateTime 1950 (encodeDateTime 1950 ⟨2100, 1, 1, 0, 0, 0, 0⟩)).year ≠ 1950 + 150 := by
  decide

/-- C6 (amended): `setDateTime` sets the century bit (bit 7 of the month
register) exactly when the year is at least `yearBase + 100`; `getDateTime`
computes the year as the BCD-decoded two-digit year plus `yearBase + 100`
when the century bit is set and plus `yearBase` otherwise; and when the
configured `yearBase` is a multiple of 100 the image written for
`yearBase + 150` decodes back to `yearBase + 150`. -/
theorem century_bit (yearBase : Nat) (dt : DateTime) (d : DateTimeRegister)
    (hb : 100 ∣ yearBase) (hm : dt.month ≤ 12) :
    ((encodeDateTime yearBase dt).month &&& 0x80 ≠ 0 ↔ yearBase + 100 ≤ dt.year) ∧
    (decodeDateTime yearBase d).year =
      convertBcdToBin d.year + (if d.month &&& 0x80 ≠ 0 then yearBase + 100 else yearBase) ∧
    (dt.year = yearBase + 150 →
      (decodeDateTime yearBase (encodeDateTime yearBase dt)).year = yearBase + 150) := by
  refine ⟨?_, rfl, ?_⟩
  · simp only [encodeDateTime]
    by_cases hc : yearBase + 100 ≤ dt.year
    · rw [if_pos hc]
      exact ⟨fun _ => hc, fun _ => month_bit7_set dt.month (by omega)⟩
    · rw [if_neg hc]
      exact ⟨fun hne => absurd (month_bit7_clear dt.month (by omega)) hne, fun hy => absurd hy hc⟩
  · intro hy
    have hc : yearBase + 100 ≤ dt.year := by omega
    simp only [decodeDateTime, encodeDateTime]
    simp only [hc, ite_true]
    rw [if_pos (month_bit7_set dt.month (by omega))]
    rw [bcd_roundtrip (dt.year % 100) (Nat.mod_lt _ (by norm_num))]
    omega

/-- C3: `isRunning` with a successful OSF test reading `Set` stores `false`
and returns `Success` with only the status-register test issued; with OSF
reading `Zero` it also tests the EOSC control bit and the stored state is
`true` exactly when that bit reads `Zero`; the first failing bus read
returns `Error` immediately. -/
theorem isRunning_cases (br1 br2 : BitResult) (st2 : WireStatus) :
    (isRunning .success .set st2 br2 =
      (CallStatus.success, some false, [BusOp.testBits Register.status StatusFlag.OSF])) ∧
    (isRunning .success .zero .success br2 =
      (CallStatus.success, some (decide (br2 = BitResult.zero)),
        [BusOp.testBits Register.status StatusFlag.OSF,
         BusOp.testBits Register.control ControlFlag.EOSC])) ∧
    ((isRunning .success .zero .success .zero).2.1 = some true) ∧
    ((isRunning .success .zero .success .set).2.1 = some false) ∧
    (isRunning .error br1 st2 br2 =
      (CallStatus.error, none, [BusOp.testBits Register.status StatusFlag.OSF])) ∧
    (isRunning .success .zero .error br2 =
      (CallStatus.error, none,
        [BusOp.testBits Register.status StatusFlag.OSF,
         BusOp.testBits Register.control ControlFlag.EOSC])) :=
  ⟨rfl, rfl, rfl, rfl, rfl, rfl⟩

/-- C4: in the alarm image built by `fillAlarmRegister` (the image
`setAlarm1` and `setAlarm2` write), bit 7 of the seconds, minutes and hours
bytes is set exactly when bits 0, 1 and 2 of the mode are set, and bit 7 of
the day byte exactly when bit 3 of the mode is set; in
`DayHoursMinutesSeconds` mode the day byte is `BCD(dayOfWeek+1) | 0x40`
(the mode's day bit being clear for this mode), otherwise it is `BCD(day)`
together with the mode's day bit. -/
theorem fillAlarmRegister_bits (alarmMode : Nat) (dt : DateTime)
    (hs : dt.second ≤ 59) (hmi : dt.minute ≤ 59) (hh : dt.hour ≤ 23)
    (hd : dt.day ≤ 31) (hw : dt.dayOfWeek ≤ 7) :
    ((fillAlarmRegister alarmMode dt).seconds &&& 0x80 ≠ 0 ↔ alarmMode &&& 0b00001 ≠ 0) ∧
    ((fillAlarmRegister alarmMode dt).minutes &&& 0x80 ≠ 0 ↔ alarmMode &&& 0b00010 ≠ 0) ∧
    ((fillAlarmRegister alarmMode dt).hours &&& 0x80 ≠ 0 ↔ alarmMode &&& 0b00100 ≠ 0) ∧
    ((fillAlarmRegister alarmMode dt).day &&& 0x80 ≠ 0 ↔ alarmMode &&& 0b01000 ≠ 0) ∧
    (alarmMode = AlarmMode.DayHoursMinutesSeconds →
      (fillAlarmRegister alarmMode dt).day = (convertBinToBcd (dt.dayOfWeek + 1) ||| 0x40)) ∧
    (alarmMode ≠ AlarmMode.DayHoursMinutesSeconds →
      (fillAlarmRegister alarmMode dt).day =
        (convertBinToBcd dt.day ||| (if alarmMode &&& 0b01000 ≠ 0 then 0x80 else 0))) := by
  simp only [fillAlarmRegister]
  refine ⟨?_, ?_, ?_, ?_, ?_, ?_⟩
  · by_cases h1 : alarmMode &&& 0b00001 ≠ 0
    · rw [if_pos h1]
      exact ⟨fun _ => h1, fun _ => lor80_bit7 _ (bcd_lt_256 _)⟩
    · rw [if_neg h1, Nat.or_zero]
      exact ⟨fun hne => absurd (bcd_bit7_clear_60 dt.second (by omega)) hne,
        fun hx => absurd hx h1⟩
  · by_cases h1 : alarmMode &&& 0b00010 ≠ 0
    · rw [if_pos h1]
      exact ⟨fun _ => h1, fun _ => lor80_bit7 _ (bcd_lt_256 _)⟩
    · rw [if_neg h1, Nat.or_zero]
      exact ⟨fun hne => absurd (bcd_bit7_clear_60 dt.minute (by omega)) hne,
        fun hx => absurd hx h1⟩
  · by_cases h1 : alarmMode &&& 0b00100 ≠ 0
    · rw [if_pos h1]
      exact ⟨fun _ => h1, fun _ => lor80_bit7 _ (bcd_lt_256 _)⟩
    · rw [if_neg h1, Nat.or_zero]
      exact ⟨fun hne => absurd (bcd_bit7_clear_32 dt.hour (by omega)) hne,
        fun hx => absurd hx h1⟩
  · by_cases h1 : alarmMode &&& 0b01000 ≠ 0
    · rw [if_pos h1]
      refine ⟨fun _ => h1, fun _ => ?_⟩
      by_cases hm16 : alarmMode = AlarmMode.DayHoursMinutesSeconds
      · rw [if_pos hm16]
        exact lor80_bit7 _ (lor40_lt_256 _ (bcd_lt_256 _))
      · rw [if_neg hm16]
        exact lor80_bit7 _ (bcd_lt_256 _)
    · rw [if_neg h1, Nat.or_zero]
      refine ⟨fun hne => absurd ?_ hne, fun hx => absurd hx h1⟩
      by_cases hm16 : alarmMode = AlarmMode.DayHoursMinutesSeconds
      · rw [if_pos hm16]
        exact dayOfWeek_or40_bit7_clear (dt.dayOfWeek + 1) (by omega)
      · rw [if_neg hm16]
        exact bcd_bit7_clear_32 dt.day (by omega)
  · intro hm16
    subst hm16
    rw [if_pos rfl, if_neg (by decide), Nat.or_zero]
  · intro hm16
    rw [if_neg hm16]

/-- C4 witness: in `DayHoursMinutesSeconds` mode with `dayOfWeek = 3` the
day byte is `BCD(4) | 0x40` (= 0x44, the mode's day bit being clear), and
`OncePerSecond` mode sets the don't-care bit on the seconds, minutes, hours
and day bytes. -/
theorem fillAlarmRegister_bits_witness :
    ((fillAlarmRegister AlarmMode.DayHoursMinutesSeconds ⟨2000, 1, 5, 10, 20, 30, 3⟩).day =
      (convertBinToBcd (3 + 1) ||| 0x40)) ∧
    ((fillAlarmRegister AlarmMode.OncePerSecond ⟨2000, 1, 5, 10, 20, 30, 3⟩).seconds &&& 0x80 ≠ 0) ∧
    ((fillAlarmRegister AlarmMode.OncePerSecond ⟨2000, 1, 5, 10, 20, 30, 3⟩).minutes &&& 0x80 ≠ 0) ∧
    ((fillAlarmRegister AlarmMode.OncePerSecond ⟨2000, 1, 5, 10, 20, 30, 3⟩).hours &&& 0x80 ≠ 0) ∧
    ((fillAlarmRegister AlarmMode.OncePerSecond ⟨2000, 1, 5, 10, 20, 30, 3⟩).day &&& 0x80 ≠ 0) :=
  ⟨(fillAlarmRegister_bits AlarmMode.DayHoursMinutesSeconds ⟨2000, 1, 5, 10, 20, 30, 3⟩
      (by decide) (by decide) (by decide) (by decide) (by decide)).2.2.2.2.1 rfl,
   (fillAlarmRegister_bits AlarmMode.OncePerSecond ⟨2000, 1, 5, 10, 20, 30, 3⟩
      (by decide) (by decide) (by decide) (by decide) (by decide)).1.mpr (by decide),
   (fillAlarmRegister_bits AlarmMode.OncePerSecond ⟨2000, 1, 5, 10, 20, 30, 3⟩
      (by decide) (by decide) (by decide) (by decide) (by decide)).2.1.mpr (by decide),
   (fillAlarmRegister_bits AlarmMode.OncePerSecond ⟨2000, 1, 5, 10, 20, 30, 3⟩
      (by decide) (by decide) (by decide) (by decide) (by decide)).2.2.1.mpr (by decide),
   (fillAlarmRegister_bits AlarmMode.OncePerSecond ⟨2000, 1, 5, 10, 20, 30, 3⟩
      (by decide) (by decide) (by decide) (by decide) (by decide)).2.2.2.1.mpr (by decide)⟩

/-- C5: `isAlarm1Set` and `isAlarm2Set` return the status of the initial
flag test read; a flag observed `Set` yields `true` together with a
clearing write whose own outcome `cw` never changes the returned status; a
flag observed `Zero` yields `false` with no clearing write; a failed test
read returns `Error` directly. -/
theorem isAlarmSet_cases (br : BitResult) (cw : WireStatus) :
    (isAlarm1Set .success .set cw = (CallStatus.success, some true,
      [BusOp.testBits Register.status StatusFlag.A1F,
       BusOp.clearBits Register.status StatusFlag.A1F])) ∧
    (isAlarm1Set .success .zero cw = (CallStatus.success, some false,
      [BusOp.testBits Register.status StatusFlag.A1F])) ∧
    (isAlarm1Set .error br cw = (CallStatus.error, none,
      [BusOp.testBits Register.status StatusFlag.A1F])) ∧
    (isAlarm2Set .success .set cw = (CallStatus.success, some true,
      [BusOp.testBits Register.status StatusFlag.A2F,
       BusOp.clearBits Register.status StatusFlag.A2F])) ∧
    (isAlarm2Set .success .zero cw = (CallStatus.success, some false,
      [BusOp.testBits Register.status StatusFlag.A2F])) ∧
    (isAlarm2Set .error br cw = (CallStatus.error, none,
      [BusOp.testBits Register.status StatusFlag.A2F])) :=
  ⟨rfl, rfl, rfl, rfl, rfl, rfl⟩

/-- C7: on a successful read, `getTemperature` yields
`high + (low >> 6) * 0.25` for a non-negative integer part and
`high - (low >> 6) * 0.25` for a negative one; in particular
`(25, 0b01000000)` decodes to 25.25 and `(-3, 0b01000000)` to -3.25. -/
theorem getTemperature_decode (h : Int) (l : Nat) :
    (0 ≤ h → (getTemperature .success ⟨h, l⟩).2.1 =
      some ((h : ℚ) + ((l >>> 6 : Nat) : ℚ) * (1 / 4))) ∧
    (h < 0 → (getTemperature .success ⟨h, l⟩).2.1 =
      some ((h : ℚ) - ((l >>> 6 : Nat) : ℚ) * (1 / 4))) ∧
    (getTemperature .success ⟨25, 0b01000000⟩).2.1 = some ((101 : ℚ) / 4) ∧
    (getTemperature .success ⟨-3, 0b01000000⟩).2.1 = some (-((13 : ℚ) / 4)) := by
  refine ⟨?_, ?_, ?_, ?_⟩
  · intro h0
    have hq : ¬((h : ℚ) < 0) := by
      rw [not_lt]
      exact_mod_cast h0
    simp [getTemperature, hq]
  · intro h0
    have hq : (h : ℚ) < 0 := by exact_mod_cast h0
    simp [getTemperature, hq]
  · have h64 : (64 >>> 6 : Nat) = 1 := rfl
    norm_num [getTemperature, h64]
  · have h64 : (64 >>> 6 : Nat) = 1 := rfl
    norm_num [getTemperature, h64]

/-- C7 witness: the general formula applied at the two concrete register
pairs from the claim. -/
theorem getTemperature_decode_witness :
    (getTemperature .success ⟨25, 64⟩).2.1 =
      some (((25 : Int) : ℚ) + ((64 >>> 6 : Nat) : ℚ) * (1 / 4)) ∧
    (getTemperature .success ⟨-3, 64⟩).2.1 =
      some (((-3 : Int) : ℚ) - ((64 >>> 6 : Nat) : ℚ) * (1 / 4)) :=
  ⟨(getTemperature_decode 25 64).1 (by decide),
   (getTemperature_decode (-3) 64).2.1 (by decide)⟩

/-- C8: `enableOscillator` clears EOSC in the control register first; if
that write fails it returns `Error` without attempting the second write,
otherwise it clears OSF in the status register and returns that second
write's status. -/
theorem enableOscillator_sequencing (w w2 : WireStatus) :
    (enableOscillator .error w2 =
      (CallStatus.error, [BusOp.clearBits Register.control ControlFlag.EOSC])) ∧
    (enableOscillator .success w = (statusFromBus w,
      [BusOp.clearBits Register.control ControlFlag.EOSC,
       BusOp.clearBits Register.status StatusFlag.OSF])) :=
  ⟨rfl, rfl⟩

/-- C9: `setAlarm1` issues exactly one batched write of all four alarm
bytes starting at register 0x07, while `setAlarm2` issues exactly one
batched write of the three bytes minutes, hours, day starting at register
0x0B, omitting the seconds byte; neither call touches anything else. -/
theorem setAlarm_writes (alarmMode : Nat) (dt : DateTime) (w : WireStatus) :
    (setAlarm1 alarmMode dt w = (statusFromBus w,
      [BusOp.writeData Register.alarm1Seconds
        [(fillAlarmRegister alarmMode dt).seconds, (fillAlarmRegister alarmMode dt).minutes,
         (fillAlarmRegister alarmMode dt).hours, (fillAlarmRegister alarmMode dt).day]])) ∧
    (setAlarm2 alarmMode dt w = (statusFromBus w,
      [BusOp.writeData Register.alarm2Minutes
        [(fillAlarmRegister alarmMode dt).minutes, (fillAlarmRegister alarmMode dt).hours,
         (fillAlarmRegister alarmMode dt).day]])) ∧
    Register.alarm1Seconds = 0x07 ∧ Register.alarm2Minutes = 0x0b :=
  ⟨rfl, rfl, rfl, rfl⟩

/-- C10: `setIntPinMode` issues the identical masked control-register write
(value 0b00101 under mask 0b00011111) for `Alarm1`, `Alarm2` and `Alarm12`,
and the identical write (value 0b00000) for `Disabled` and
`SquareWave1Hz`, because these enumerators share their underlying value. -/
theorem setIntPinMode_aliasing (w : WireStatus) :
    setIntPinMode IntPinMode.Alarm1 w = setIntPinMode IntPinMode.Alarm2 w ∧
    setIntPinMode IntPinMode.Alarm1 w = setIntPinMode IntPinMode.Alarm12 w ∧
    setIntPinMode IntPinMode.Disabled w = setIntPinMode IntPinMode.SquareWave1Hz w ∧
    setIntPinMode IntPinMode.Alarm1 w =
      (statusFromBus w, [BusOp.writeBits Register.control 0b00011111 0b00101]) ∧
    setIntPinMode IntPinMode.Disabled w =
      (statusFromBus w, [BusOp.writeBits Register.control 0b00011111 0b00000]) :=
  ⟨rfl, rfl, rfl, rfl, rfl⟩

/-- C6 witness: with `yearBase = 2000` and year 2150 the century bit is set
and the image decodes back to 2150. -/
theorem century_bit_witness :
    (encodeDateTime 2000 ⟨2150, 6, 15, 12, 30, 45, 2⟩).month &&& 0x80 ≠ 0 ∧
    (decodeDateTime 2000 (encodeDateTime 2000 ⟨2150, 6, 15, 12, 30, 45, 2⟩)).year =
      2000 + 150 :=
  ⟨(century_bit 2000 ⟨2150, 6, 15, 12, 30, 45, 2⟩ ⟨0, 0, 0, 0, 0, 0, 0⟩ (by decide)
      (by decide)).1.mpr (by decide),
   (century_bit 2000 ⟨2150, 6, 15, 12, 30, 45, 2⟩ ⟨0, 0, 0, 0, 0, 0, 0⟩ (by decide)
      (by decide)).2.2 (by decide)⟩

end DS3231
